import Mathlib

/-!
Shallow embedding of the content-sensitivity scoring pipeline of this
repository.

The repository contains two near-duplicate pipeline implementations:

* `src/src/services/sensitivityAnalysis.ts` — the pixel-statistics variant
  (frame cap 30, flagging thresholds `max > 0.4 || avg > 0.4`), followed in
  the same file by the orchestrator `processVideo` and the in-memory job
  registry (`processingQueue`, `getProcessingStatus`).
* `src/unnamed/part_000` — the file-size variant (frame cap 10, thresholds
  `max > 0.7 || avg > 0.5`, per-frame score `baseScore + Math.random()*0.2`).

Modelling conventions:

* JS numbers are idealised as `ℚ` (and `ℝ` where `Math.sqrt` appears in the
  pixel scorer); timestamps are represented by their second offsets (the
  `HH:MM:SS` rendering in the source is presentation only, injective on the
  generated offsets).
* Fallible externals (ffprobe, `fs` operations, Mongo updates) are modelled
  by explicit outcome data threaded through environment records: a `Bool`
  flag per operation that can throw, an `Option` for data that may be
  missing, and explicit outcome constructors for the extraction stage.
* The per-frame scorer's internal try/catch is modelled by an `Option`
  input: `none` is any internal error (unreadable/corrupt file), `some`
  carries the data the scorer reads on the success path.
* `Math.random()` draws are passed explicitly (one rational in `[0,1)` per
  call site).
-/

namespace ContentSensitivity

/-- Binary safety verdict returned by `analyzeVideoSensitivity`. -/
inductive Verdict where
  | safe
  | flagged
  deriving DecidableEq, Repr

/-- Processing status of a video record (`uploaded|processing|processed|failed`). -/
inductive VStatus where
  | uploaded
  | processing
  | processed
  | failed
  deriving DecidableEq, Repr

/-- Safety status stored on a video record (`unknown|safe|flagged`). -/
inductive SStatus where
  | unknown
  | safe
  | flagged
  deriving DecidableEq, Repr

/-- Lifecycle state of a `ProcessingJob` in the in-memory queue. -/
inductive JStatus where
  | queued
  | processing
  | completed
  | failed
  deriving DecidableEq, Repr

/-! ## Frame extraction: timestamp generation

From `extractFrames` (both variants; they differ only in the cap, 30 vs 10):

```
const duration = metadata.format?.duration || 0;
const numFrames = Math.max(1, Math.min(CAP, Math.floor(duration / interval)));
for (let i = 0; i < numFrames; i++) { timestamps.push(format(i * interval)); }
if (timestamps.length === 0) { timestamps.push("00:00:01"); }
```
-/

/-- Result of `metadata.format?.duration || 0`: a missing (or zero) probed
duration collapses to `0`. -/
def jsDuration (probed : Option ℚ) : ℚ :=
  probed.getD 0

/-- The frame count `Math.max(1, Math.min(cap, Math.floor(duration / interval)))`. -/
def numFrames (cap : ℕ) (duration interval : ℚ) : ℕ :=
  (max 1 (min (cap : ℤ) ⌊duration / interval⌋)).toNat

/-- Timestamp-generation portion of `extractFrames`: the list of second
offsets `0, interval, 2*interval, ...` of length `numFrames`, with the
source's fallback to a single timestamp at 1 second when the generated list
is empty. -/
def extractFramesTimestamps (cap : ℕ) (duration interval : ℚ) : List ℚ :=
  let ts := (List.range (numFrames cap duration interval)).map
    (fun (i : ℕ) => (i : ℚ) * interval)
  if ts.isEmpty then [1] else ts

/-! ## Frame scorers -/

/-- Channel statistics and byte size read by the pixel-statistics
`analyzeFrame` (raw `sharp` channel means and standard deviations, before
the division by 255). -/
structure FrameStats where
  fileSize : ℕ
  rMean : ℝ
  gMean : ℝ
  bMean : ℝ
  rStd : ℝ
  gStd : ℝ
  bStd : ℝ

/-- Pixel-statistics `analyzeFrame` from
`src/src/services/sensitivityAnalysis.ts` (lines 96-164). The `Option`
input models the surrounding try/catch: any internal error (`stat` or image
decoding throws) yields `0`. `Real.sqrt` forces this definition to be
marked noncomputable; every other definition in this file is executable. -/
noncomputable def analyzeFrame (input : Option FrameStats) : ℝ :=
  match input with
  | none => 0
  | some st =>
    let rMean := st.rMean / 255
    let gMean := st.gMean / 255
    let bMean := st.bMean / 255
    let rStd := st.rStd / 255
    let gStd := st.gStd / 255
    let bStd := st.bStd / 255
    let brightness := (rMean + gMean + bMean) / 3
    let contrast := (rStd + gStd + bStd) / 3
    let colorVariance :=
      ((rMean - gMean) ^ 2 + (rMean - bMean) ^ 2 + (gMean - bMean) ^ 2) / 3
    let brightnessRisk := 1 - |brightness - 1 / 2| * 2
    let contrastRisk := min 1 (contrast * 2)
    let colorRisk := min 1 (Real.sqrt colorVariance * 2)
    let sizeRisk : ℝ :=
      if st.fileSize < 5000 then 1 / 10
      else if st.fileSize < 50000 then 3 / 10
      else if st.fileSize < 200000 then 6 / 10
      else 8 / 10
    let score :=
      brightnessRisk * (3 / 10) + contrastRisk * (3 / 10) +
        colorRisk * (2 / 10) + sizeRisk * (2 / 10)
    max 0 (min 1 score)

/-- File-size `analyzeFrame` from `src/unnamed/part_000` (lines 95-122).
The `Option ℕ` input is the byte size read by `stat` (`none` models the
catch: `stat` threw), and `rand` is the `Math.random()` draw in `[0,1)`:

```
const baseScore = fileSize < 1000 ? 0.1 : 0.05;
const randomVariation = Math.random() * 0.2;
return Math.min(1, baseScore + randomVariation);
```
-/
def analyzeFrameFS (input : Option ℕ) (rand : ℚ) : ℚ :=
  match input with
  | none => 0
  | some fileSize =>
    let baseScore : ℚ := if fileSize < 1000 then 1 / 10 else 1 / 20
    let randomVariation := rand * (2 / 10)
    min 1 (baseScore + randomVariation)

/-- Scorer input of the file-size pipeline: the byte size (or a scorer
error) together with the frame's `Math.random()` draw. -/
def fsEntryScore (p : Option ℕ × ℚ) : ℚ :=
  analyzeFrameFS p.1 p.2

/-! ## Verdict aggregation

From `analyzeVideoSensitivity` (both variants; they differ only in the
thresholds, 0.4/0.4 vs 0.7/0.5):

```
const maxScore = Math.max(...analysisScores);
const avgScore = analysisScores.reduce((a, b) => a + b, 0) / analysisScores.length;
const shouldFlag = maxScore > MAX_T || avgScore > MEAN_T;
```
together with the up-front `if (framePaths.length === 0) return "safe"`.
-/

/-- The value of `Math.max(s, ...rest)` on a non-empty argument list. -/
def listMax1 [LinearOrder α] (s : α) (rest : List α) : α :=
  rest.foldl max s

/-- The value of `scores.reduce((a, b) => a + b, 0) / scores.length`. -/
def jsMean [LinearOrderedField α] (l : List α) : α :=
  l.foldl (· + ·) 0 / (l.length : α)

/-- Verdict aggregation: `safe` on the empty score list (the source returns
`safe` before scoring when no frames were extracted), otherwise flag iff
`max > maxT || avg > meanT`. -/
def aggregateScores [LinearOrderedField α] (maxT meanT : α) : List α → Verdict
  | [] => .safe
  | s :: rest =>
    if listMax1 s rest > maxT ∨ jsMean (s :: rest) > meanT then .flagged
    else .safe

/-! ## Filesystem model for the run's temporary directory

The temporary directory is exclusively owned by one run. Its state is the
directory's existence flag plus the list of (identifiers of) frame files it
currently holds. `fs` operations that can throw carry explicit success
flags; `rmdirSync` additionally fails on a non-empty directory. -/

/-- State of the run's temporary frame directory. -/
structure FsState where
  dirExists : Bool
  files : List ℕ
  deriving DecidableEq, Repr

/-- Success flags for the cleanup operations of one run: per-file `unlink`
outcomes (indexed by file identifier), the catch-path `readdir`, and
`rmdirSync`. -/
structure CleanupFlags where
  unlinkOk : ℕ → Bool
  readdirOk : Bool
  rmdirOk : Bool

/-- Cleanup flags with every operation succeeding. -/
def CleanupFlags.allOk : CleanupFlags :=
  ⟨fun _ => true, true, true⟩

/-- The error-path unlink loop: the whole loop sits inside one try/catch,
so the first failing `unlink` aborts the remaining deletions (and the
subsequent `rmdirSync`). Returns the remaining files and whether the loop
completed without throwing. -/
def unlinkUntilFail (ok : ℕ → Bool) : List ℕ → List ℕ × Bool
  | [] => ([], true)
  | i :: rest => if ok i then unlinkUntilFail ok rest else (i :: rest, false)

/-- Catch-block cleanup of `analyzeVideoSensitivity` (both variants):

```
try {
  if (fs.existsSync(tempDir)) {
    const files = await readdir(tempDir);
    for (const file of files) { await unlink(path.join(tempDir, file)); }
    fs.rmdirSync(tempDir);
  }
} catch (cleanupError) { /* swallowed */ }
```
-/
def cleanupOnError (cf : CleanupFlags) (fs : FsState) : FsState :=
  if fs.dirExists = false then fs
  else if cf.readdirOk = false then fs
  else
    let r := unlinkUntilFail cf.unlinkOk fs.files
    if r.2 then { dirExists := !cf.rmdirOk, files := r.1 }
    else { dirExists := true, files := r.1 }

/-- Success-path cleanup of `analyzeVideoSensitivity` (both variants): each
frame's `unlink` has its own try/catch (a failure skips only that file),
then `rmdirSync` has its own try/catch. `rmdirSync` succeeds only when its
flag is set and the directory is empty. The directory holds files
`0, ..., n-1`, one per extracted frame. -/
def cleanupOnSuccess (cf : CleanupFlags) (n : ℕ) : FsState :=
  let rem := (List.range n).filter (fun i => !cf.unlinkOk i)
  { dirExists := !(cf.rmdirOk && rem.isEmpty), files := rem }

/-! ## The analysis pipeline (`analyzeVideoSensitivity`) -/

/-- Outcome of the extraction stage, covering the three reject sites of
`extractFrames` (ffprobe error, screenshot error, final readdir error) and
the resolve site. `leftover` is the number of frame files sitting in the
temporary directory when the error fires; on success, `frames` carries one
scorer input per extracted frame file. In every case `extractFrames` has
already created the temporary directory (the `mkdirSync` runs first). -/
inductive ExtractOutcome (σ : Type) where
  | probeErr
  | screenshotErr (leftover : ℕ)
  | readdirErr (leftover : ℕ)
  | ok (frames : List σ)

/-- The `analyzeVideoSensitivity` function, parametric over the per-frame
scorer (the two source variants differ exactly in the scorer and the two
thresholds). Returns the verdict together with the final state of the
run's temporary directory. The source never throws out of this function:
every internal error lands in the catch block, which cleans up and returns
`safe`. Note the zero-frames early return (`if (framePaths.length === 0)
return "safe"`) skips both cleanup steps. -/
def analyzeVideoSensitivity {σ : Type} [LinearOrderedField α] (scorer : σ → α)
    (maxT meanT : α) (ext : ExtractOutcome σ) (cf : CleanupFlags) :
    Verdict × FsState :=
  match ext with
  | .probeErr => (.safe, cleanupOnError cf ⟨true, []⟩)
  | .screenshotErr n => (.safe, cleanupOnError cf ⟨true, List.range n⟩)
  | .readdirErr n => (.safe, cleanupOnError cf ⟨true, List.range n⟩)
  | .ok frames =>
    if frames.isEmpty then (.safe, ⟨true, []⟩)
    else
      (aggregateScores maxT meanT (frames.map scorer),
        cleanupOnSuccess cf frames.length)

/-! ## Orchestrator (`processVideo`) and job registry

From the second document of `src/src/services/sensitivityAnalysis.ts`
(lines 241-429): `processVideo` looks the video up, registers a
`ProcessingJob`, marks the video `processing`, probes the duration
(`getVideoMetadata` resolves `{duration: 0}` on probe error — it never
rejects), persists the duration, runs `analyzeVideoSensitivity`, persists
the final status, and deletes the job; any throw lands in the catch block,
which best-effort-marks the video `failed` and deletes the job. -/

/-- Math.round: half-up rounding of the probed duration. -/
def jsRound (q : ℚ) : ℤ :=
  ⌊q + 1 / 2⌋

/-- The video record fields this pipeline touches. -/
structure VideoRecord where
  status : VStatus
  safetyStatus : SStatus
  duration : Option ℤ
  deriving DecidableEq, Repr

/-- A `ProcessingJob` entry of the in-memory `processingQueue`. -/
structure PJob where
  status : JStatus
  progress : ℕ
  safetyStatus : Option Verdict
  deriving DecidableEq, Repr

/-- Environment of one `processVideo` run: the outcome of every external
operation the run performs, in program order. `updFailedOk` is the
best-effort failure-path persistence (its own error is swallowed by the
attached `.catch`). -/
structure RunEnv (σ : Type) where
  videoFound : Bool
  updProcessingOk : Bool
  probedDuration : Option ℚ
  updDurationOk : Bool
  ext : ExtractOutcome σ
  cleanup : CleanupFlags
  updFinalOk : Bool
  updFailedOk : Bool

/-- Observable result of one `processVideo` run: the final video record,
the registry entry for this video id, the successive values written to the
job's `progress` field (creation writes `0`), and the final state of the
temporary directory (`⟨false, []⟩` when the analysis stage never ran). -/
structure RunState where
  video : VideoRecord
  job : Option PJob
  trace : List ℕ
  fs : FsState

/-- Conversion of the verdict into the persisted safety status. -/
def verdictToSafety : Verdict → SStatus
  | .safe => .safe
  | .flagged => .flagged

/-- The catch block of `processVideo`: best-effort `updateVideoStatus`
to `failed` (swallowed on error), emit failure event, delete the job. -/
def failPath (st : RunState) (updFailedOk : Bool) : RunState :=
  let v := if updFailedOk then { st.video with status := .failed } else st.video
  { st with video := v, job := none }

/-- The `processVideo` orchestrator. The video record starts as an
uploaded record with safety status `unknown` and no duration. -/
def processVideo {σ : Type} [LinearOrderedField α] (scorer : σ → α)
    (maxT meanT : α) (env : RunEnv σ) : RunState :=
  let st0 : RunState :=
    ⟨⟨.uploaded, .unknown, none⟩, none, [], ⟨false, []⟩⟩
  if !env.videoFound then failPath st0 env.updFailedOk
  else
    let st1 : RunState :=
      { st0 with job := some ⟨.queued, 0, none⟩, trace := [0] }
    if !env.updProcessingOk then failPath st1 env.updFailedOk
    else
      let st2 : RunState :=
        { st1 with
          video := { st1.video with status := .processing },
          job := some ⟨.processing, 10, none⟩,
          trace := st1.trace ++ [10] }
      let dur : ℤ := jsRound (jsDuration env.probedDuration)
      let st3 : RunState :=
        { st2 with job := some ⟨.processing, 30, none⟩,
                   trace := st2.trace ++ [30] }
      if !env.updDurationOk then failPath st3 env.updFailedOk
      else
        let st4 : RunState :=
          { st3 with video := { st3.video with duration := some dur } }
        let vr := analyzeVideoSensitivity scorer maxT meanT env.ext env.cleanup
        let st5 : RunState :=
          { st4 with
            fs := vr.2,
            job := some ⟨.processing, 80, some vr.1⟩,
            trace := st4.trace ++ [80] }
        if !env.updFinalOk then failPath st5 env.updFailedOk
        else
          let st6 : RunState :=
            { st5 with
              video := { st5.video with
                status := .processed,
                safetyStatus := verdictToSafety vr.1 },
              job := some ⟨.completed, 100, some vr.1⟩,
              trace := st5.trace ++ [100] }
          { st6 with job := none }

/-- Snapshot query `getProcessingStatus`: `processingQueue.get(videoId) ||
null`, keyed to the run's video id. -/
def getProcessingStatus (st : RunState) : Option PJob :=
  st.job

/-- Extraction outcomes that model `extractFrames` rejecting (throwing into
the caller's catch block). -/
def ExtractOutcome.isThrow {σ : Type} : ExtractOutcome σ → Bool
  | .probeErr => true
  | .screenshotErr _ => true
  | .readdirErr _ => true
  | .ok _ => false

/-- Cleanup flags with every operation failing. -/
def cfFailAll : CleanupFlags :=
  ⟨fun _ => false, false, false⟩

/-- A concrete run environment for the pixel pipeline in which the video
lookup and every persistence call succeed, the orchestrator-level probe
returns duration 0, extraction rejects at its ffprobe call, and every
cleanup operation succeeds. -/
def envC1 : RunEnv (Option FrameStats) :=
  ⟨true, true, some 0, true, .probeErr, .allOk, true, true⟩

/-! ## Helper lemmas: `Math.max` folds, sums, means -/

theorem le_listMax1_self [LinearOrder α] (rest : List α) (s : α) :
    s ≤ listMax1 s rest := by
  induction rest generalizing s with
  | nil => exact le_rfl
  | cons x xs ih =>
    simp only [listMax1, List.foldl_cons] at ih ⊢
    exact le_trans (le_max_left _ _) (ih _)

theorem listMax1_mem [LinearOrder α] (rest : List α) (s : α) :
    listMax1 s rest ∈ s :: rest := by
  induction rest generalizing s with
  | nil => simp [listMax1]
  | cons x xs ih =>
    have h := ih (max s x)
    simp only [listMax1, List.foldl_cons] at h ⊢
    rcases List.mem_cons.mp h with h1 | h1
    · rcases max_choice s x with h2 | h2
      · exact List.mem_cons.mpr (.inl (h1.trans h2))
      · exact List.mem_cons.mpr (.inr (List.mem_cons.mpr (.inl (h1.trans h2))))
    · exact List.mem_cons.mpr (.inr (List.mem_cons.mpr (.inr h1)))

theorem le_listMax1_of_mem [LinearOrder α] {rest : List α} {s x : α}
    (hx : x ∈ s :: rest) : x ≤ listMax1 s rest := by
  induction rest generalizing s with
  | nil =>
    rcases List.mem_cons.mp hx with h | h
    · exact h ▸ le_rfl
    · cases h
  | cons y ys ih =>
    simp only [listMax1, List.foldl_cons] at ih ⊢
    rcases List.mem_cons.mp hx with h | h
    · exact h ▸ le_trans (le_max_left _ _) (le_listMax1_self ys _)
    · rcases List.mem_cons.mp h with h1 | h1
      · exact h1 ▸ le_trans (le_max_right _ _) (le_listMax1_self ys _)
      · exact ih (List.mem_cons.mpr (.inr h1))

theorem listMax1_perm [LinearOrder α] {s₁ s₂ : α} {r₁ r₂ : List α}
    (h : (s₁ :: r₁).Perm (s₂ :: r₂)) : listMax1 s₁ r₁ = listMax1 s₂ r₂ := by
  apply le_antisymm
  · exact le_listMax1_of_mem (h.mem_iff.mp (listMax1_mem r₁ s₁))
  · exact le_listMax1_of_mem (h.mem_iff.mpr (listMax1_mem r₂ s₂))

theorem listMax1_lt_of_forall_lt [LinearOrder α] {rest : List α} {s c : α}
    (h : ∀ x ∈ s :: rest, x < c) : listMax1 s rest < c :=
  h _ (listMax1_mem rest s)

theorem foldl_add_eq [AddCommMonoid α] (l : List α) :
    ∀ a : α, l.foldl (· + ·) a = a + l.sum := by
  induction l with
  | nil => intro a; simp
  | cons x xs ih =>
    intro a
    simp only [List.foldl_cons, List.sum_cons, ih, add_assoc]

theorem jsMean_perm [LinearOrderedField α] {l₁ l₂ : List α}
    (h : l₁.Perm l₂) : jsMean l₁ = jsMean l₂ := by
  simp only [jsMean, foldl_add_eq, zero_add, h.sum_eq, h.length_eq]

theorem sum_lt_of_forall_lt [LinearOrderedField α] {l : List α} {c : α}
    (hne : l ≠ []) (h : ∀ x ∈ l, x < c) : l.sum < c * l.length := by
  induction l with
  | nil => cases hne rfl
  | cons x xs ih =>
    rcases List.eq_nil_or_concat xs with h0 | _
    · subst h0
      simpa using h x (List.mem_cons_self x [])
    · cases xs with
      | nil => simpa using h x (List.mem_cons_self x [])
      | cons y ys =>
        have hx := h x (List.mem_cons_self x _)
        have hxs := ih (by simp) (fun z hz => h z (List.mem_cons.mpr (.inr hz)))
        simp only [List.sum_cons, List.length_cons] at hxs ⊢
        push_cast
        push_cast at hxs
        nlinarith

theorem jsMean_lt_of_forall_lt [LinearOrderedField α] {s : α} {rest : List α}
    {c : α} (h : ∀ x ∈ s :: rest, x < c) : jsMean (s :: rest) < c := by
  have hlen : (0 : α) < ((s :: rest).length : α) := by
    simp only [List.length_cons]
    push_cast
    positivity
  have hsum := sum_lt_of_forall_lt (l := s :: rest) (by simp) h
  simp only [jsMean, foldl_add_eq, zero_add]
  rw [div_lt_iff₀ hlen]
  linarith [hsum]

theorem aggregateScores_safe_of_bounds [LinearOrderedField α]
    {maxT meanT c : α} {s : α} {rest : List α}
    (h : ∀ x ∈ s :: rest, x < c) (hmax : c ≤ maxT) (hmean : c ≤ meanT) :
    aggregateScores maxT meanT (s :: rest) = .safe := by
  have h1 : ¬ listMax1 s rest > maxT :=
    not_lt.mpr (le_trans (le_of_lt (listMax1_lt_of_forall_lt h)) hmax)
  have h2 : ¬ jsMean (s :: rest) > meanT :=
    not_lt.mpr (le_trans (le_of_lt (jsMean_lt_of_forall_lt h)) hmean)
  simp only [aggregateScores, h1, h2, or_self, if_false]

/-! ## Helper lemmas: the file-size variant is bounded away from flagging -/

theorem analyzeFrameFS_lt_three_tenths (input : Option ℕ) {r : ℚ}
    (h0 : 0 ≤ r) (h1 : r < 1) : analyzeFrameFS input r < 3 / 10 := by
  cases input with
  | none => norm_num [analyzeFrameFS]
  | some fileSize =>
    simp only [analyzeFrameFS]
    have hbase : (if fileSize < 1000 then (1 : ℚ) / 10 else 1 / 20) ≤ 1 / 10 := by
      split <;> norm_num
    have hvar : r * (2 / 10) < 2 / 10 := by nlinarith
    calc min 1 ((if fileSize < 1000 then (1 : ℚ) / 10 else 1 / 20) + r * (2 / 10))
        ≤ (if fileSize < 1000 then (1 : ℚ) / 10 else 1 / 20) + r * (2 / 10) :=
          min_le_right _ _
      _ < 3 / 10 := by linarith

theorem fsEntryScore_lt_three_tenths {p : Option ℕ × ℚ}
    (h0 : 0 ≤ p.2) (h1 : p.2 < 1) : fsEntryScore p < 3 / 10 :=
  analyzeFrameFS_lt_three_tenths p.1 h0 h1

/-- The file-size pipeline of `src/unnamed/part_000` returns `safe` on
every extraction outcome whose `Math.random()` draws lie in `[0,1)`. -/
theorem fsAnalysis_safe (ext : ExtractOutcome (Option ℕ × ℚ))
    (cf : CleanupFlags)
    (hdraws : ∀ frames, ext = .ok frames → ∀ p ∈ frames, 0 ≤ p.2 ∧ p.2 < 1) :
    (analyzeVideoSensitivity fsEntryScore (7 / 10) (1 / 2) ext cf).1 = .safe := by
  cases ext with
  | probeErr => rfl
  | screenshotErr n => rfl
  | readdirErr n => rfl
  | ok frames =>
    cases frames with
    | nil => rfl
    | cons p rest =>
      have hvalid := hdraws (p :: rest) rfl
      simp only [analyzeVideoSensitivity, List.isEmpty_cons, List.map_cons]
      refine aggregateScores_safe_of_bounds (c := 3 / 10) ?_ (by norm_num)
        (by norm_num)
      intro x hx
      rcases List.mem_cons.mp hx with h | h
      · subst h
        exact fsEntryScore_lt_three_tenths (hvalid p (by simp)).1
          (hvalid p (by simp)).2
      · rcases List.mem_map.mp h with ⟨q, hq, rfl⟩
        exact fsEntryScore_lt_three_tenths
          (hvalid q (List.mem_cons.mpr (.inr hq))).1
          (hvalid q (List.mem_cons.mpr (.inr hq))).2

/-! ## Helper lemmas: cleanup -/

theorem unlinkUntilFail_allOk {ok : ℕ → Bool} (h : ∀ i, ok i = true) :
    ∀ l : List ℕ, unlinkUntilFail ok l = ([], true) := by
  intro l
  induction l with
  | nil => rfl
  | cons i rest ih => simp [unlinkUntilFail, h i, ih]

theorem cleanupOnError_allOk {cf : CleanupFlags}
    (hu : ∀ i, cf.unlinkOk i = true) (hr : cf.readdirOk = true)
    (hd : cf.rmdirOk = true) (files : List ℕ) :
    cleanupOnError cf ⟨true, files⟩ = ⟨false, []⟩ := by
  simp [cleanupOnError, hr, hd, unlinkUntilFail_allOk hu]

theorem cleanupOnSuccess_allOk {cf : CleanupFlags}
    (hu : ∀ i, cf.unlinkOk i = true) (hd : cf.rmdirOk = true) (n : ℕ) :
    cleanupOnSuccess cf n = ⟨false, []⟩ := by
  simp [cleanupOnSuccess, hu, hd, List.filter_eq_nil_iff]

/-! ## Claim theorems -/

/-- C6: aggregation maps the empty score sequence to `safe`; for every
non-empty score sequence the verdict is `flagged` iff `max(scores) > maxT`
or `mean(scores) > meanT`, and `safe` otherwise. -/
theorem c6_aggregate_empty_safe_and_flag_iff :
    (∀ maxT meanT : ℚ, aggregateScores maxT meanT [] = .safe) ∧
    ∀ (maxT meanT s : ℚ) (rest : List ℚ),
      aggregateScores maxT meanT (s :: rest) = .flagged ↔
        listMax1 s rest > maxT ∨ jsMean (s :: rest) > meanT := by
  refine ⟨fun _ _ => rfl, fun maxT meanT s rest => ?_⟩
  simp only [aggregateScores]
  split
  · simpa
  · simpa using (by assumption : ¬(listMax1 s rest > maxT ∨ jsMean (s :: rest) > meanT))

/-- C6 witness: the aggregation law instantiated at the part_000 thresholds
and a concrete two-score sequence. -/
theorem c6_witness :
    aggregateScores ((7 : ℚ) / 10) (1 / 2) [] = .safe ∧
    (aggregateScores ((7 : ℚ) / 10) (1 / 2) [1 / 2, 1 / 10] = .flagged ↔
      listMax1 ((1 : ℚ) / 2) [1 / 10] > 7 / 10 ∨
        jsMean [(1 : ℚ) / 2, 1 / 10] > 1 / 2) :=
  ⟨c6_aggregate_empty_safe_and_flag_iff.1 (7 / 10) (1 / 2),
    c6_aggregate_empty_safe_and_flag_iff.2 (7 / 10) (1 / 2) (1 / 2) [1 / 10]⟩

/-- C7: for every non-empty score sequence the aggregated verdict is a pure
function of `(max, mean)`: every permutation of the sequence yields the same
verdict, and any two sequences with identical max and identical mean yield
identical verdicts. -/
theorem c7_aggregate_function_of_max_mean :
    ∀ (maxT meanT s₁ : ℚ) (r₁ : List ℚ) (s₂ : ℚ) (r₂ : List ℚ),
      ((s₁ :: r₁).Perm (s₂ :: r₂) →
        aggregateScores maxT meanT (s₁ :: r₁) =
          aggregateScores maxT meanT (s₂ :: r₂)) ∧
      (listMax1 s₁ r₁ = listMax1 s₂ r₂ →
        jsMean (s₁ :: r₁) = jsMean (s₂ :: r₂) →
        aggregateScores maxT meanT (s₁ :: r₁) =
          aggregateScores maxT meanT (s₂ :: r₂)) := by
  intro maxT meanT s₁ r₁ s₂ r₂
  have key : ∀ (hmax : listMax1 s₁ r₁ = listMax1 s₂ r₂)
      (hmean : jsMean (s₁ :: r₁) = jsMean (s₂ :: r₂)),
      aggregateScores maxT meanT (s₁ :: r₁) =
        aggregateScores maxT meanT (s₂ :: r₂) := by
    intro hmax hmean
    simp only [aggregateScores, hmax, hmean]
  exact ⟨fun hperm => key (listMax1_perm hperm) (jsMean_perm hperm), key⟩

/-- C7 witness: a transposition of a two-score sequence keeps the verdict,
and two different three-score sequences with equal max (1/2) and equal mean
(3/10) get identical verdicts. -/
theorem c7_witness :
    aggregateScores ((7 : ℚ) / 10) (1 / 2) [1 / 10, 1 / 5] =
      aggregateScores ((7 : ℚ) / 10) (1 / 2) [1 / 5, 1 / 10] ∧
    aggregateScores ((7 : ℚ) / 10) (1 / 2) [1 / 10, 1 / 2, 3 / 10] =
      aggregateScores ((7 : ℚ) / 10) (1 / 2) [1 / 5, 1 / 2, 1 / 5] := by
  constructor
  · exact (c7_aggregate_function_of_max_mean (7 / 10) (1 / 2) (1 / 10) [1 / 5]
      (1 / 5) [1 / 10]).1 (List.Perm.swap (1 / 5) (1 / 10) [])
  · exact (c7_aggregate_function_of_max_mean (7 / 10) (1 / 2) (1 / 10)
      [1 / 2, 3 / 10] (1 / 5) [1 / 2, 1 / 5]).2
      (by unfold listMax1; norm_num)
      (by unfold jsMean; norm_num)

/-- C3: for all durations `D ≥ 0` and intervals `I > 0` (and cap at least
1), `extractFrames` generates exactly `clamp(floor(D/I), 1, CAP)` timestamps
at `0, I, 2I, ...`; for a 50-second video with interval 5 and cap 10 it
generates exactly the 10 timestamps `{0, 5, ..., 45}`. -/
theorem c3_extract_timestamp_count :
    (∀ (cap : ℕ) (D I : ℚ), 1 ≤ cap → 0 ≤ D → 0 < I →
      (extractFramesTimestamps cap D I).length =
        max 1 (min cap ⌊D / I⌋.toNat) ∧
      ∀ i (h : i < (extractFramesTimestamps cap D I).length),
        (extractFramesTimestamps cap D I).get ⟨i, h⟩ = (i : ℚ) * I) ∧
    extractFramesTimestamps 10 50 5 =
      [0, 5, 10, 15, 20, 25, 30, 35, 40, 45] := by
  constructor
  · intro cap D I hcap hD hI
    have hfloor : 0 ≤ ⌊D / I⌋ := Int.floor_nonneg.mpr (div_nonneg hD hI.le)
    have hclamp : numFrames cap D I = max 1 (min cap ⌊D / I⌋.toNat) := by
      unfold numFrames
      simp only [max_def, min_def]
      split_ifs <;> omega
    have hpos : 1 ≤ numFrames cap D I :=
      hclamp ▸ le_max_left 1 _
    have hts : extractFramesTimestamps cap D I =
        (List.range (numFrames cap D I)).map (fun (i : ℕ) => (i : ℚ) * I) := by
      unfold extractFramesTimestamps
      rw [if_neg]
      simp only [List.isEmpty_eq_true, List.map_eq_nil_iff, List.range_eq_nil]
      omega
    constructor
    · rw [hts]
      simp only [List.length_map, List.length_range]
      exact hclamp
    · intro i h
      rw [List.get_of_eq hts ⟨i, h⟩]
      simp only [List.get_eq_getElem, Fin.coe_cast, List.getElem_map,
        List.getElem_range]
  · unfold extractFramesTimestamps
    rw [show numFrames 10 50 5 = 10 by
      unfold numFrames
      rw [show ⌊(50 : ℚ) / 5⌋ = 10 by norm_num]
      rfl]
    rw [show List.range 10 = [0, 1, 2, 3, 4, 5, 6, 7, 8, 9] from rfl]
    norm_num [List.isEmpty]

/-- C3 witness: the general count law instantiated at cap 10, duration 50,
interval 5. -/
theorem c3_witness :
    (extractFramesTimestamps 10 50 5).length =
      max 1 (min 10 ⌊(50 : ℚ) / 5⌋.toNat) :=
  ((c3_extract_timestamp_count.1 10 50 5 (by norm_num) (by norm_num)
    (by norm_num)).1)

/-- C2 counterexample: for a probed duration of 0 the generated timestamp
list is `[0]` — exactly one timestamp, but at 0 seconds, not at 1 second as
the claim states (the `"00:00:01"` fallback branch is unreachable because
the frame count is clamped to at least 1). -/
theorem c2_counterexample :
    extractFramesTimestamps 30 (jsDuration (some 0)) 5 = [0] ∧
    extractFramesTimestamps 30 (jsDuration (some 0)) 5 ≠ [1] := by
  have h : extractFramesTimestamps 30 (jsDuration (some 0)) 5 = [0] := by
    unfold extractFramesTimestamps
    rw [show numFrames 30 (jsDuration (some 0)) 5 = 1 by
      unfold numFrames jsDuration
      norm_num]
    rw [show List.range 1 = [0] from rfl]
    simp only [List.map, List.isEmpty]
    norm_num
  refine ⟨h, ?_⟩
  rw [h]
  intro hc
  have := List.cons.injEq (0 : ℚ) [] 1 [] ▸ hc
  simp at hc

/-- C2 amended: for every video whose probed duration is 0 or unknown, the
extraction stage generates exactly one timestamp, and that timestamp is at
0 seconds from the start of the video (the source's 1-second fallback is
dead code, since `Math.max(1, ...)` makes the timestamp list non-empty). -/
theorem c2_zero_duration_single_timestamp_at_zero :
    ∀ (cap : ℕ) (probed : Option ℚ) (I : ℚ),
      (probed = none ∨ probed = some 0) → 0 < I →
      extractFramesTimestamps cap (jsDuration probed) I = [0] := by
  intro cap probed I hprobed hI
  have hdur : jsDuration probed = 0 := by
    rcases hprobed with h | h <;> simp [h, jsDuration]
  rw [hdur]
  have hnf : numFrames cap 0 I = 1 := by
    unfold numFrames
    rw [zero_div, Int.floor_zero]
    omega
  unfold extractFramesTimestamps
  rw [hnf]
  rw [show List.range 1 = [0] from rfl]
  simp

/-- C2 witness: the amended statement at cap 10, unknown probed duration,
interval 5. -/
theorem c2_witness :
    extractFramesTimestamps 10 (jsDuration none) 5 = [0] :=
  c2_zero_duration_single_timestamp_at_zero 10 none 5 (Or.inl rfl)
    (by norm_num)

/-- C5: for every input (including corrupt/unreadable files, modelled by
`none`), each frame scorer returns a value in the closed interval `[0,1]`
and never fails outward: any internal error yields `0` instead of a
propagated error. For the file-size scorer the `Math.random()` draw is
nonnegative. -/
theorem c5_scoreFrame_bounded :
    analyzeFrame none = 0 ∧
    (∀ st : FrameStats,
      0 ≤ analyzeFrame (some st) ∧ analyzeFrame (some st) ≤ 1) ∧
    (∀ r : ℚ, analyzeFrameFS none r = 0) ∧
    (∀ (sz : ℕ) (r : ℚ), 0 ≤ r →
      0 ≤ analyzeFrameFS (some sz) r ∧ analyzeFrameFS (some sz) r ≤ 1) := by
  refine ⟨rfl, fun st => ?_, fun _ => rfl, fun sz r hr => ?_⟩
  · simp only [analyzeFrame]
    exact ⟨le_max_left 0 _, max_le zero_le_one (min_le_left 1 _)⟩
  · simp only [analyzeFrameFS]
    refine ⟨le_min zero_le_one ?_, min_le_left 1 _⟩
    have hbase : (0 : ℚ) ≤ if sz < 1000 then (1 : ℚ) / 10 else 1 / 20 := by
      split <;> norm_num
    have hvar : (0 : ℚ) ≤ r * (2 / 10) := by positivity
    linarith

/-- C5 witness: the bounds at the concrete file size 500 and random draw
1/2, together with the error cases. -/
theorem c5_witness :
    analyzeFrame none = 0 ∧ analyzeFrameFS none (1 / 2) = 0 ∧
    0 ≤ analyzeFrameFS (some 500) (1 / 2) ∧
    analyzeFrameFS (some 500) (1 / 2) ≤ 1 := by
  refine ⟨c5_scoreFrame_bounded.1, c5_scoreFrame_bounded.2.2.1 (1 / 2), ?_, ?_⟩
  · exact (c5_scoreFrame_bounded.2.2.2 500 (1 / 2) (by norm_num)).1
  · exact (c5_scoreFrame_bounded.2.2.2 500 (1 / 2) (by norm_num)).2

/-- C4 counterexample: frame scoring in the file-size variant does contain
randomness — the same frame input (file size 500 bytes) scores differently
under two different `Math.random()` draws (0 and 1/2), so the per-frame
score is not a function of the frame input alone. -/
theorem c4_counterexample :
    analyzeFrameFS (some 500) 0 ≠ analyzeFrameFS (some 500) (1 / 2) := by
  unfold analyzeFrameFS
  norm_num

/-- C4 amended: the pixel-statistics scorer and the aggregation are pure
functions of their inputs, but the file-size scorer adds a random variation
`Math.random() * 0.2` to each score; the pipeline verdict is nevertheless
identical across any two runs on the same unmodified video (same extracted
frame sizes) with draws in `[0,1)`, because both runs' verdicts are `safe`. -/
theorem c4_verdict_deterministic :
    ∀ (sizes : List (Option ℕ)) (d₁ d₂ : List ℚ)
      (cf₁ cf₂ : CleanupFlags),
      (∀ r ∈ d₁, 0 ≤ r ∧ r < 1) → (∀ r ∈ d₂, 0 ≤ r ∧ r < 1) →
      (analyzeVideoSensitivity fsEntryScore (7 / 10) (1 / 2)
        (.ok (sizes.zip d₁)) cf₁).1 =
      (analyzeVideoSensitivity fsEntryScore (7 / 10) (1 / 2)
        (.ok (sizes.zip d₂)) cf₂).1 := by
  intro sizes d₁ d₂ cf₁ cf₂ h₁ h₂
  have hs : ∀ (d : List ℚ), (∀ r ∈ d, 0 ≤ r ∧ r < 1) → ∀ (cf : CleanupFlags),
      (analyzeVideoSensitivity fsEntryScore (7 / 10) (1 / 2)
        (.ok (sizes.zip d)) cf).1 = .safe := by
    intro d hd cf
    refine fsAnalysis_safe _ cf ?_
    intro frames hframes p hp
    have : p ∈ sizes.zip d := by
      injection hframes with h
      rw [h]
      exact hp
    exact hd p.2 (List.of_mem_zip this).2
  rw [hs d₁ h₁ cf₁, hs d₂ h₂ cf₂]

/-- C4 witness: two runs over the same two frames (sizes 500 and an
unreadable frame) with different draw sequences produce the same verdict. -/
theorem c4_witness :
    (analyzeVideoSensitivity fsEntryScore (7 / 10) (1 / 2)
      (.ok ([some 500, none].zip [0, 1 / 2])) .allOk).1 =
    (analyzeVideoSensitivity fsEntryScore (7 / 10) (1 / 2)
      (.ok ([some 500, none].zip [1 / 2, 0])) .allOk).1 := by
  refine c4_verdict_deterministic [some 500, none] [0, 1 / 2] [1 / 2, 0]
    .allOk .allOk ?_ ?_ <;>
  · intro r hr
    rcases List.mem_cons.mp hr with rfl | hr
    · norm_num
    · rcases List.mem_cons.mp hr with rfl | hr
      · norm_num
      · cases hr

/-- C10: in the file-size pipeline variant every per-frame score is
strictly below 0.3 (base score at most 0.1 plus a random variation
strictly below 0.2), so with thresholds `max > 0.7 / mean > 0.5` the
verdict is `safe` for every extraction outcome whose `Math.random()` draws
lie in `[0,1)` — this variant can never return `flagged`. -/
theorem c10_filesize_variant_never_flags :
    (∀ (input : Option ℕ) (r : ℚ), 0 ≤ r → r < 1 →
      analyzeFrameFS input r < 3 / 10) ∧
    ∀ (ext : ExtractOutcome (Option ℕ × ℚ)) (cf : CleanupFlags),
      (∀ frames, ext = .ok frames → ∀ p ∈ frames, 0 ≤ p.2 ∧ p.2 < 1) →
      (analyzeVideoSensitivity fsEntryScore (7 / 10) (1 / 2) ext cf).1 =
        .safe :=
  ⟨fun input _ h0 h1 => analyzeFrameFS_lt_three_tenths input h0 h1,
    fun ext cf hdraws => fsAnalysis_safe ext cf hdraws⟩

/-- C10 witness: the score bound at file size 500 with draw 1/2, and the
`safe` verdict on a concrete two-frame extraction. -/
theorem c10_witness :
    analyzeFrameFS (some 500) (1 / 2) < 3 / 10 ∧
    (analyzeVideoSensitivity fsEntryScore (7 / 10) (1 / 2)
      (.ok [(some 2000, 1 / 2), (none, 0)]) .allOk).1 = .safe := by
  constructor
  · exact c10_filesize_variant_never_flags.1 (some 500) (1 / 2) (by norm_num)
      (by norm_num)
  · refine c10_filesize_variant_never_flags.2 _ .allOk ?_
    intro frames hframes p hp
    injection hframes with h
    subst h
    rcases List.mem_cons.mp hp with rfl | hp
    · norm_num
    · rcases List.mem_cons.mp hp with rfl | hp
      · norm_num
      · cases hp

/-- C8 counterexample: on the zero-frames success path the function
returns `safe` without attempting any cleanup — with every filesystem
operation set to succeed, the temporary directory still exists when
control returns, so removal was not attempted on this exit path. -/
theorem c8_counterexample :
    (analyzeVideoSensitivity (α := ℝ) analyzeFrame (2 / 5) (2 / 5)
      (.ok ([] : List (Option FrameStats))) .allOk).2 =
      ⟨true, []⟩ := by
  rfl

/-- C8 amended: on the error (catch) exit path and on the success exit
path with at least one extracted frame, removal of every temporary frame
file and of the temporary directory is attempted before control returns
(when all cleanup operations succeed, the directory and its files are
gone), and any error raised during cleanup is swallowed: the cleanup flags
never change the returned verdict. The zero-frames success path, however,
returns without attempting cleanup. -/
theorem c8_cleanup_swallowed_and_attempted :
    (∀ {σ α : Type} [inst : LinearOrderedField α] (scorer : σ → α)
      (maxT meanT : α) (ext : ExtractOutcome σ) (cf₁ cf₂ : CleanupFlags),
      (analyzeVideoSensitivity scorer maxT meanT ext cf₁).1 =
        (analyzeVideoSensitivity scorer maxT meanT ext cf₂).1) ∧
    (∀ {σ α : Type} [inst : LinearOrderedField α] (scorer : σ → α)
      (maxT meanT : α) (ext : ExtractOutcome σ) (cf : CleanupFlags),
      (∀ i, cf.unlinkOk i = true) → cf.readdirOk = true →
      cf.rmdirOk = true →
      (∀ frames, ext = ExtractOutcome.ok frames → frames ≠ []) →
      (analyzeVideoSensitivity scorer maxT meanT ext cf).2 = ⟨false, []⟩) := by
  constructor
  · intro σ α inst scorer maxT meanT ext cf₁ cf₂
    cases ext with
    | probeErr => rfl
    | screenshotErr n => rfl
    | readdirErr n => rfl
    | ok frames =>
      by_cases hemp : frames.isEmpty <;>
        simp [analyzeVideoSensitivity, hemp]
  · intro σ α inst scorer maxT meanT ext cf hu hr hd hok
    cases ext with
    | probeErr =>
      simpa [analyzeVideoSensitivity] using cleanupOnError_allOk hu hr hd []
    | screenshotErr n =>
      simpa [analyzeVideoSensitivity] using
        cleanupOnError_allOk hu hr hd (List.range n)
    | readdirErr n =>
      simpa [analyzeVideoSensitivity] using
        cleanupOnError_allOk hu hr hd (List.range n)
    | ok frames =>
      have hne : frames ≠ [] := hok frames rfl
      have hemp : frames.isEmpty = false := by
        cases frames with
        | nil => cases hne rfl
        | cons a l => rfl
      simpa [analyzeVideoSensitivity, hemp] using
        cleanupOnSuccess_allOk hu hd frames.length

/-- C8 witness: with two leftover frame files after a screenshot error,
the verdict is unchanged between all-succeeding and all-failing cleanup
flags, and the all-succeeding cleanup leaves no directory and no files. -/
theorem c8_witness :
    (analyzeVideoSensitivity fsEntryScore (7 / 10) (1 / 2)
      (.screenshotErr 2) .allOk).1 =
      (analyzeVideoSensitivity fsEntryScore (7 / 10) (1 / 2)
        (.screenshotErr 2) cfFailAll).1 ∧
    (analyzeVideoSensitivity fsEntryScore (7 / 10) (1 / 2)
      (.screenshotErr 2) .allOk).2 = ⟨false, []⟩ := by
  constructor
  · exact c8_cleanup_swallowed_and_attempted.1 fsEntryScore (7 / 10) (1 / 2)
      (.screenshotErr 2) .allOk cfFailAll
  · exact c8_cleanup_swallowed_and_attempted.2 fsEntryScore (7 / 10) (1 / 2)
      (.screenshotErr 2) .allOk (fun _ => rfl) rfl rfl
      (fun frames h => by cases h)

/-- C1 counterexample: in a run where frame extraction throws (ffprobe
rejects inside `extractFrames`) and all persistence calls succeed, the run
does not terminate with processing status `failed`: `analyzeVideoSensitivity`
catches the error and returns `safe`, so the video ends `processed` with
safety status `safe` (not `unknown`). -/
theorem c1_counterexample :
    (processVideo (α := ℝ) analyzeFrame (2 / 5) (2 / 5) envC1).video.status =
      .processed ∧
    (processVideo (α := ℝ) analyzeFrame (2 / 5) (2 / 5) envC1).video.status ≠
      .failed ∧
    (processVideo (α := ℝ) analyzeFrame (2 / 5) (2 / 5)
      envC1).video.safetyStatus = .safe ∧
    (processVideo (α := ℝ) analyzeFrame (2 / 5) (2 / 5)
      envC1).video.safetyStatus ≠ .unknown := by
  refine ⟨rfl, ?_, rfl, ?_⟩ <;> decide

/-- C1 amended: if frame extraction throws during a run whose lookup and
persistence calls succeed, the catch block inside `analyzeVideoSensitivity`
swallows the error and returns `safe`; the run then completes with
processing status `processed` and safety status `safe` (the video is never
marked `failed` by an extraction throw), and when the cleanup operations
succeed the temporary frame directory is absent when control returns. -/
theorem c1_extraction_throw_yields_processed_safe :
    ∀ env : RunEnv (Option FrameStats),
      env.videoFound = true → env.updProcessingOk = true →
      env.updDurationOk = true → env.updFinalOk = true →
      env.ext.isThrow = true →
      (∀ i, env.cleanup.unlinkOk i = true) →
      env.cleanup.readdirOk = true → env.cleanup.rmdirOk = true →
      (processVideo (α := ℝ) analyzeFrame (2 / 5) (2 / 5) env).video.status =
        .processed ∧
      (processVideo (α := ℝ) analyzeFrame (2 / 5) (2 / 5)
        env).video.safetyStatus = .safe ∧
      (processVideo (α := ℝ) analyzeFrame (2 / 5) (2 / 5) env).fs =
        ⟨false, []⟩ := by
  intro env hvf hup hud huf hthrow hu hr hd
  obtain ⟨vf, up, pd, ud, ext, cf, uf, ufl⟩ := env
  simp only at hvf hup hud huf hthrow hu hr hd
  subst hvf hup hud huf
  cases ext with
  | ok frames => simp [ExtractOutcome.isThrow] at hthrow
  | probeErr =>
    simp [processVideo, analyzeVideoSensitivity, verdictToSafety,
      cleanupOnError_allOk hu hr hd]
  | screenshotErr n =>
    simp [processVideo, analyzeVideoSensitivity, verdictToSafety,
      cleanupOnError_allOk hu hr hd]
  | readdirErr n =>
    simp [processVideo, analyzeVideoSensitivity, verdictToSafety,
      cleanupOnError_allOk hu hr hd]

/-- C1 witness: the amended statement at the concrete environment
`envC1`. -/
theorem c1_witness :
    (processVideo (α := ℝ) analyzeFrame (2 / 5) (2 / 5) envC1).video.status =
      .processed ∧
    (processVideo (α := ℝ) analyzeFrame (2 / 5) (2 / 5)
      envC1).video.safetyStatus = .safe ∧
    (processVideo (α := ℝ) analyzeFrame (2 / 5) (2 / 5) envC1).fs =
      ⟨false, []⟩ :=
  c1_extraction_throw_yields_processed_safe envC1 rfl rfl rfl rfl rfl
    (fun _ => rfl) rfl rfl

/-- C9: within one run the job's integer progress percentage is
monotonically non-decreasing from creation to run end, and the job is
removed from the in-memory registry at run end on both the success and the
failure path, so the snapshot query for that video identifier returns
`none` afterwards. -/
theorem c9_progress_monotone_and_job_removed :
    ∀ {σ α : Type} [inst : LinearOrderedField α] (scorer : σ → α)
      (maxT meanT : α) (env : RunEnv σ),
      List.Chain' (· ≤ ·) (processVideo scorer maxT meanT env).trace ∧
      getProcessingStatus (processVideo scorer maxT meanT env) = none := by
  intro σ α inst scorer maxT meanT env
  obtain ⟨vf, up, pd, ud, ext, cf, uf, ufl⟩ := env
  cases vf <;> cases up <;> cases ud <;> cases uf <;>
    constructor <;>
      simp [processVideo, failPath, getProcessingStatus, List.Chain']

/-- C9 witness: the invariant instantiated for the file-size pipeline on a
concrete fully-succeeding environment whose extraction rejects at probe. -/
theorem c9_witness :
    List.Chain' (· ≤ ·) (processVideo fsEntryScore ((7 : ℚ) / 10) (1 / 2)
      ⟨true, true, some 0, true, .probeErr, .allOk, true, true⟩).trace ∧
    getProcessingStatus (processVideo fsEntryScore ((7 : ℚ) / 10) (1 / 2)
      ⟨true, true, some 0, true, .probeErr, .allOk, true, true⟩) = none :=
  c9_progress_monotone_and_job_removed fsEntryScore (7 / 10) (1 / 2)
    ⟨true, true, some 0, true, .probeErr, .allOk, true, true⟩

end ContentSensitivity
